import Mathlib

/-!
Shallow embedding of `src/variants2proteins.py` (FRED-2/Fred2-Apps):
the VEP annotation reader `read_variant_effect_predictor` (its inner
classifier `get_type`, the per-sub-string INFO processing and the
per-line Variant construction) and the post-processing filter chain of
`main`.  Python exceptions are modelled with `Except PyError`; Python
`int()` with `pyInt?`; `str.split(sep)` (every separator the script
uses is a single character) with `pySplit`, written by structural
recursion over the character list so that every definition evaluates
inside the kernel.
-/

/-- Python exceptions that the modelled code can raise. -/
inductive PyError where
  | valueError
  | typeError
  | indexError
deriving DecidableEq, Repr

deriving instance DecidableEq for Except

/-- `Fred2.Core.Variant.VariationType` members used by the script. -/
inductive VariationType where
  | SNP
  | DEL
  | FSDEL
  | INS
  | FSINS
  | UNKNOWN
deriving DecidableEq, Repr

/-- `get_type(ref, alt)` from `read_variant_effect_predictor`
(src/variants2proteins.py lines 57-73): classification of a variant
from the lengths of the reference and alternative allele strings.  The
sequential `if`/`return` chain of the Python source becomes nested
`if`/`else`. -/
def get_type (ref alt : String) : VariationType :=
  if ref.length = 1 ∧ alt.length = 1 then .SNP
  else if ref.length > 0 ∧ alt.length = 0 then
    (if ref.length % 3 = 0 then .DEL else .FSDEL)
  else if ref.length = 0 ∧ alt.length > 0 then
    (if alt.length % 3 = 0 then .INS else .FSINS)
  else .UNKNOWN

/-- Python `s.split(c)` on a character list: splitting `""` yields
`[""]`, and a trailing separator yields a trailing `""`. -/
def splitChar (c : Char) : List Char → List (List Char)
  | [] => [[]]
  | a :: rest =>
    if a = c then [] :: splitChar c rest
    else
      match splitChar c rest with
      | [] => [[a]]
      | g :: gs => (a :: g) :: gs

/-- Python `s.split(c)` for a one-character separator `c`. -/
def pySplit (c : Char) (s : String) : List String :=
  (splitChar c s.data).map String.mk

/-- Python `s.strip()`: remove leading and trailing whitespace. -/
def pyStrip (s : String) : String :=
  String.mk
    (((s.data.dropWhile Char.isWhitespace).reverse.dropWhile
        Char.isWhitespace).reverse)

/-- Python `x in l` for a list of strings, as a Bool. -/
def pyMem (x : String) (l : List String) : Bool :=
  l.any (fun y => decide (y = x))

/-- Python `int(s)`: strip whitespace, optional sign, then at least one
decimal digit; `none` models a raised `ValueError`. -/
def pyInt? (s : String) : Option Int :=
  match (pyStrip s).data with
  | [] => none
  | a :: rest =>
    let (neg, core) :=
      if a = '-' then (true, rest)
      else if a = '+' then (false, rest)
      else (false, a :: rest)
    if core ≠ [] ∧ core.all Char.isDigit then
      let n := core.foldl (fun acc c => acc * 10 + (c.toNat - '0'.toNat)) 0
      some (if neg then -(n : Int) else (n : Int))
    else none

/-- ASCII upper-casing of one character (the alleles the script
upper-cases are ASCII nucleotide strings). -/
def upChar (c : Char) : Char :=
  if 'a' ≤ c ∧ c ≤ 'z' then Char.ofNat (c.toNat - 32) else c

/-- Python `s.upper()` on the allele strings. -/
def pyUpper (s : String) : String :=
  String.mk (s.data.map upChar)

/-- `Fred2.Core.MutationSyntax` as constructed at
src/variants2proteins.py line 112: transcript id, 0-based transcript
position, 0-based protein position (sentinel -1), the raw annotation
sub-string, an empty secondary field, and the HGNC gene id. -/
structure MutationSyntax where
  transID : String
  tranPos : Int
  protPos : Int
  cdsMutation : String
  aaMutation : String
  geneID : String
deriving DecidableEq, Repr

/-- `Fred2.Core.Variant` as constructed at src/variants2proteins.py
line 117.  The transcript-id → MutationSyntax dict is an association
list with overwrite-on-repeated-key semantics. -/
structure Variant where
  id : String
  type : VariationType
  chrom : String
  genomePos : Int
  ref : String
  obs : String
  coding : List (String × MutationSyntax)
  isHomozygous : Bool
  isSynonymous : Bool
deriving DecidableEq, Repr

/-- Python dict assignment `coding[transcript_id] = ms`: replace the
value at an existing key, else append. -/
def insertCoding (m : List (String × MutationSyntax)) (k : String)
    (v : MutationSyntax) : List (String × MutationSyntax) :=
  match m with
  | [] => [(k, v)]
  | (k', v') :: rest =>
      if k' = k then (k, v) :: rest else (k', v') :: insertCoding rest k v

/-- The `coding_types` set of src/variants2proteins.py lines 75-78
(the duplicated "start_lost" of the source collapses in the set). -/
def coding_types : List String :=
  ["3_prime_UTR_variant", "5_prime_UTR_variant", "start_lost", "stop_gained",
   "frameshift_variant", "inframe_insertion", "inframe_deletion",
   "missense_variant", "protein_altering_variant", "splice_region_variant",
   "incomplete_terminal_codon_variant", "stop_retained_variant",
   "synonymous_variant", "coding_sequence_variant"]

/-- `co.strip().split("|")` for an INFO sub-string. -/
def subFields (co : String) : List String := pySplit '|' (pyStrip co)

/-- Per-line mutable state of the INFO loop: the `coding` dict and the
`isSynonymous` flag (src/variants2proteins.py lines 88-89). -/
structure SubState where
  coding : List (String × MutationSyntax)
  isSynonymous : Bool
deriving DecidableEq, Repr

/-- One iteration of the INFO loop (src/variants2proteins.py lines
91-115) on the sub-string `co`.  Returns the updated state and whether
the malformed-field warning was emitted, or the uncaught exception:
fewer than 16 pipe fields make the 16-name unpacking raise a caught
`ValueError` (warn and continue); 16 to 22 fields make the
`split("|")[22]` access raise an uncaught `IndexError`; a `None` gene
filter makes `HGNC_ID not in gene_filter` raise an uncaught
`TypeError`; an unparseable position makes `int()` raise an uncaught
`ValueError`. -/
def processSubstring (gf : Option (List String)) (st : SubState)
    (co : String) : Except PyError (SubState × Bool) :=
  let fields := subFields co
  if fields.length < 16 then .ok (st, true)
  else if fields.length < 23 then .error .indexError
  else
    let var_type := fields.getD 1 ""
    let transcript_type := fields.getD 5 ""
    let transcript_id := fields.getD 6 ""
    let transcript_pos := fields.getD 13 ""
    let prot_pos := fields.getD 14 ""
    let hgnc := fields.getD 22 ""
    if transcript_type ≠ "Transcript" then .ok (st, false)
    else
      match gf with
      | none => .error .typeError
      | some l =>
        if ¬ pyMem hgnc l ∧ l ≠ [] then .ok (st, false)
        else
          let terms := pySplit '&' var_type
          let syn := terms.any (fun t => decide (t = "synonymous_variant"))
          if terms.any (fun t => pyMem t coding_types) then
            if transcript_pos ≠ "" ∧ ¬ transcript_pos.data.contains '?' then
              match pyInt? ((pySplit '-' transcript_pos).getD 0 "") with
              | none => .error .valueError
              | some tp =>
                match (if prot_pos = "" then some (-1 : Int)
                       else (pyInt? ((pySplit '-' prot_pos).getD 0 "")).map
                         (· - 1)) with
                | none => .error .valueError
                | some pp =>
                  .ok ({ coding := insertCoding st.coding transcript_id
                           ⟨transcript_id, tp - 1, pp, co, "", hgnc⟩,
                         isSynonymous := syn }, false)
            else .ok ({ st with isSynonymous := syn }, false)
          else .ok ({ st with isSynonymous := syn }, false)

/-- The INFO loop over `info.split(",")`, threading the state and
counting emitted warnings. -/
def processInfo (gf : Option (List String)) (cos : List String)
    (st : SubState) (w : Nat) : Except PyError (SubState × Nat) :=
  match cos with
  | [] => .ok (st, w)
  | co :: rest =>
    match processSubstring gf st co with
    | .error e => .error e
    | .ok (st1, warned) =>
        processInfo gf rest st1 (if warned then w + 1 else w)

/-- The tab fields `l.strip().split("\t")` of an input line. -/
def lineFields (l : String) : List String := pySplit '\t' (pyStrip l)

/-- The comma-separated INFO sub-strings of an input line (field 7). -/
def lineInfo (l : String) : List String :=
  pySplit ',' ((lineFields l).getD 7 "")

/-- Whether a line is skipped as a comment or as blank
(src/variants2proteins.py line 84). -/
def skippedLine (l : String) : Bool :=
  l.data.head? = some '#' || pyStrip l = ""

/-- One iteration of the file loop (src/variants2proteins.py lines
81-117): skip comments and blanks; unpack the first 8 tab fields (fewer
than 8 raises an uncaught `ValueError`); run the INFO loop; when the
`coding` dict is non-empty, build the Variant — `int(gene_pos)` raises
an uncaught `ValueError` on a non-numeric position.  Returns the
emitted Variant (if any) and the number of warnings emitted. -/
def processLine (gf : Option (List String)) (l : String) :
    Except PyError (Option Variant × Nat) :=
  if skippedLine l then .ok (none, 0)
  else
    let fields := lineFields l
    if fields.length < 8 then .error .valueError
    else
      let chrom := fields.getD 0 ""
      let gene_pos := fields.getD 1 ""
      let var_id := fields.getD 2 ""
      let ref := fields.getD 3 ""
      let alt := fields.getD 4 ""
      match processInfo gf (lineInfo l) ⟨[], false⟩ 0 with
      | .error e => .error e
      | .ok (st, w) =>
        if st.coding ≠ [] then
          match pyInt? gene_pos with
          | none => .error .valueError
          | some p =>
            .ok (some ⟨var_id, get_type ref alt, chrom, p, pyUpper ref,
                       pyUpper alt, st.coding, false, st.isSynonymous⟩, w)
        else .ok (none, w)

/-- The file loop from line index `i` on: collects the emitted Variants
in order and the line indices of the emitted warnings; the first
uncaught exception aborts the whole read. -/
def readLines (gf : Option (List String)) (i : Nat) :
    List String → Except PyError (List Variant × List Nat)
  | [] => .ok ([], [])
  | l :: rest =>
    match processLine gf l with
    | .error e => .error e
    | .ok (ov, w) =>
      match readLines gf (i + 1) rest with
      | .error e => .error e
      | .ok (vs, ws) =>
        .ok ((match ov with | none => vs | some v => v :: vs),
             List.replicate w i ++ ws)

/-- `read_variant_effect_predictor(file, gene_filter=None)`
(src/variants2proteins.py lines 48-118) on the file's lines: the
returned Variant list together with the warned line indices, or the
uncaught exception.  `gene_filter=None` is the Python default. -/
def read_variant_effect_predictor (lines : List String)
    (gene_filter : Option (List String) := none) :
    Except PyError (List Variant × List Nat) :=
  readLines gene_filter 0 lines

/-- The filter flags of `main` (src/variants2proteins.py lines
154-170). -/
structure Args where
  filterSNP : Bool
  filterINDEL : Bool
  filterFSINDEL : Bool
deriving DecidableEq, Repr

/-- The user-selected filters of `main` (src/variants2proteins.py lines
209-219), applied in source order. -/
def applyUserFilters (a : Args) (vs : List Variant) : List Variant :=
  let v1 := if a.filterSNP then vs.filter (fun x => x.type ≠ .SNP) else vs
  let v2 := if a.filterINDEL then
      v1.filter (fun x =>
        x.type ∉ [VariationType.INS, .DEL, .FSDEL, .FSINS])
    else v1
  if a.filterFSINDEL then
    v2.filter (fun x => x.type ∉ [VariationType.FSDEL, .FSINS])
  else v2

/-- Lines 209-228 of `main`: user filters, then the emptiness check
(message to stderr and return -1), then the unconditional removal of
UNKNOWN-typed variants; the `.ok` value is what is handed to
`generate_transcripts_from_variants`. -/
def mainFilterChain (a : Args) (vs : List Variant) :
    Except String (List Variant) :=
  let fs := applyUserFilters a vs
  if fs.isEmpty then
    .error "No variants left after filtering. Please refine your filtering criteria."
  else .ok (fs.filter (fun x => x.type ≠ .UNKNOWN))

/-- Sample VEP INFO sub-string with the full 23 pipe-delimited fields:
consequence (field 1), feature type (field 5), transcript id (field 6),
CDS position (field 13), protein position (field 14) and HGNC id
(field 22). -/
def mkCo (vt tt tid tpos ppos hgnc : String) : String :=
  String.intercalate "|"
    ["G", vt, "", "", "", tt, tid, "", "", "", "", "", "", tpos, ppos,
     "", "", "", "", "", "", "", hgnc]

/-- Sample VCF line: 8 tab-separated fields with the given POS, REF,
ALT and INFO. -/
def mkLine (pos ref alt info : String) : String :=
  String.intercalate "\t" ["1", pos, "rs1", ref, alt, ".", "PASS", info]

/-- Sample Variant of a given type, for exercising the filter chain. -/
def sampleVariant (t : VariationType) : Variant :=
  ⟨"rs1", t, "1", 100, "A", "G", [], false, false⟩

/-- The argument record with no user filter selected. -/
def noFilters : Args := ⟨false, false, false⟩

/-- Whether some Transcript annotation of the line carries the
consequence term "synonymous_variant" (the reading of claim C3). -/
def lineHasSynAnnot (l : String) : Bool :=
  (lineInfo l).any (fun co =>
    decide ((subFields co).getD 5 "" = "Transcript") &&
    (pySplit '&' ((subFields co).getD 1 "")).any
      (fun t => decide (t = "synonymous_variant")))

/-- A coding-relevant Transcript sub-string whose CDS-position field is
empty. -/
def c2co : String := mkCo "missense_variant" "Transcript" "T1" "" "6" "HGNC:1"

/-- A line whose first Transcript annotation is synonymous and whose
second (last-processed) one is not. -/
def c3line : String :=
  mkLine "100" "A" "G"
    (mkCo "synonymous_variant" "Transcript" "T1" "5" "6" "HGNC:1" ++ "," ++
     mkCo "missense_variant" "Transcript" "T2" "7" "8" "HGNC:1")

/-- A sub-string with exactly 16 pipe-delimited fields. -/
def c4co : String := String.intercalate "|" (List.replicate 16 "x")

/-- A well-formed coding Transcript sub-string (CDS position "15"). -/
def wellFormedCo : String :=
  mkCo "missense_variant" "Transcript" "T1" "15" "6" "HGNC:1"

/-- A well-formed synonymous Transcript sub-string. -/
def synCo : String :=
  mkCo "synonymous_variant" "Transcript" "T1" "5" "6" "HGNC:1"

/-- A coding Transcript sub-string with an unparseable CDS position. -/
def badPosCo : String :=
  mkCo "missense_variant" "Transcript" "T1" "abc" "6" "HGNC:1"

/-- A line whose single annotation is not coding-relevant and whose POS
field is not numeric. -/
def nonCodingBadPosLine : String :=
  mkLine "xx" "A" "G" (mkCo "intron_variant" "Transcript" "T1" "5" "6" "HGNC:1")

/-- A line whose single annotation is coding-relevant and whose POS
field is not numeric. -/
def codingBadPosLine : String :=
  mkLine "xx" "A" "G" wellFormedCo

/-- A fully well-formed line carrying one coding Transcript
annotation. -/
def goodLine : String := mkLine "100" "A" "G" wellFormedCo

set_option maxRecDepth 100000

/-- C1: `get_type` returns SNP iff both allele strings have length 1;
DEL iff the reference is non-empty, the alternative empty and the
reference length a multiple of 3; FSDEL iff non-empty reference, empty
alternative and length not a multiple of 3; INS and FSINS dually for an
empty reference; and UNKNOWN for every other length combination. -/
theorem get_type_classification (ref alt : String) :
    (get_type ref alt = .SNP ↔ ref.length = 1 ∧ alt.length = 1) ∧
    (get_type ref alt = .DEL ↔
      ref.length > 0 ∧ alt.length = 0 ∧ ref.length % 3 = 0) ∧
    (get_type ref alt = .FSDEL ↔
      ref.length > 0 ∧ alt.length = 0 ∧ ref.length % 3 ≠ 0) ∧
    (get_type ref alt = .INS ↔
      ref.length = 0 ∧ alt.length > 0 ∧ alt.length % 3 = 0) ∧
    (get_type ref alt = .FSINS ↔
      ref.length = 0 ∧ alt.length > 0 ∧ alt.length % 3 ≠ 0) ∧
    (get_type ref alt = .UNKNOWN ↔
      ¬(ref.length = 1 ∧ alt.length = 1) ∧
      ¬(ref.length > 0 ∧ alt.length = 0) ∧
      ¬(ref.length = 0 ∧ alt.length > 0)) := by
  unfold get_type
  split_ifs with h1 h2 h3 h4 h5 <;>
    refine ⟨?_, ?_, ?_, ?_, ?_, ?_⟩ <;>
    constructor <;> intro hh <;> simp_all

/-- C7: for every filter-flag combination, the variant sequence that
the filter chain hands to transcript generation contains no
UNKNOWN-typed variant: the UNKNOWN removal is unconditional. -/
theorem mainFilterChain_no_unknown (a : Args) (vs ws : List Variant)
    (h : mainFilterChain a vs = .ok ws) :
    ∀ v ∈ ws, v.type ≠ .UNKNOWN := by
  simp only [mainFilterChain] at h
  split_ifs at h with hemp
  all_goals try simp at h
  cases h
  intro v hv
  rw [List.mem_filter] at hv
  simpa using hv.2

/-- Witness for C7 at a concrete input. -/
theorem mainFilterChain_no_unknown_witness :
    (sampleVariant .SNP).type ≠ VariationType.UNKNOWN :=
  mainFilterChain_no_unknown noFilters [sampleVariant .SNP]
    [sampleVariant .SNP] (by decide) (sampleVariant .SNP) (by simp)

/-- C5 counterexample: with no user filter selected and a single
UNKNOWN-typed variant, the full chain (user filters plus the
unconditional UNKNOWN removal) leaves an empty sequence, yet
`mainFilterChain` reports no error and silently hands the empty
sequence downstream. -/
theorem mainFilterChain_empty_cex :
    (applyUserFilters noFilters [sampleVariant .UNKNOWN]).filter
        (fun x => x.type ≠ .UNKNOWN) = [] ∧
    mainFilterChain noFilters [sampleVariant .UNKNOWN] = .ok [] := by
  decide

/-- C5 amended: the "No variants left after filtering" report is issued
exactly when the user-selected filters alone leave an empty sequence;
the unconditional UNKNOWN removal runs only after this check, so a
surviving sequence of UNKNOWN-typed variants produces no report and an
empty downstream sequence. -/
theorem mainFilterChain_empty_report (a : Args) (vs : List Variant) :
    (applyUserFilters a vs = [] →
      mainFilterChain a vs =
        .error "No variants left after filtering. Please refine your filtering criteria.") ∧
    (applyUserFilters a vs ≠ [] →
      mainFilterChain a vs =
        .ok ((applyUserFilters a vs).filter
          (fun x => x.type ≠ .UNKNOWN))) := by
  constructor <;> intro h <;> simp only [mainFilterChain]
  · rw [if_pos (by simpa [List.isEmpty_iff] using h)]
  · rw [if_neg (by simpa [List.isEmpty_iff] using h)]

/-- Witness for C5's amended theorem at a concrete input. -/
theorem mainFilterChain_empty_report_witness :
    mainFilterChain ⟨true, false, false⟩ [sampleVariant .SNP] =
      .error "No variants left after filtering. Please refine your filtering criteria." :=
  (mainFilterChain_empty_report ⟨true, false, false⟩
    [sampleVariant .SNP]).1 (by decide)

/-- C4 counterexample: a sub-string with 16 pipe-delimited fields
(fewer than the 23 the claim requires) is not skipped with a warning:
the `split("|")[22]` access raises an uncaught IndexError that aborts
the read. -/
theorem malformed_substring_cex :
    (subFields c4co).length < 23 ∧
    processSubstring (some []) ⟨[], false⟩ c4co = .error .indexError := by
  decide

/-- C4 amended: a sub-string with fewer than 16 pipe-delimited fields
(so that unpacking the 16 positional names fails) is skipped
non-fatally with a warning and the INFO loop continues with the
remaining sub-strings; a sub-string with 16 to 22 fields instead
raises an uncaught IndexError at the `[22]` access, aborting the
read. -/
theorem malformed_substring (gf : Option (List String)) (st : SubState)
    (co : String) (rest : List String) (w : Nat) :
    ((subFields co).length < 16 →
      processSubstring gf st co = .ok (st, true) ∧
      processInfo gf (co :: rest) st w = processInfo gf rest st (w + 1)) ∧
    (16 ≤ (subFields co).length → (subFields co).length < 23 →
      processSubstring gf st co = .error .indexError ∧
      processInfo gf (co :: rest) st w = .error .indexError) := by
  constructor
  · intro h
    have h1 : processSubstring gf st co = .ok (st, true) := by
      simp only [processSubstring]
      rw [if_pos h]
    refine ⟨h1, ?_⟩
    simp [processInfo, h1]
  · intro h1 h2
    have he : processSubstring gf st co = .error .indexError := by
      simp only [processSubstring]
      rw [if_neg (by omega), if_pos h2]
    refine ⟨he, ?_⟩
    simp only [processInfo, he]

/-- Witness for C4's amended theorem at a concrete input. -/
theorem malformed_substring_witness :
    processSubstring (some []) ⟨[], false⟩ "short" = .ok (⟨[], false⟩, true) ∧
    processInfo (some []) ["short"] ⟨[], false⟩ 0 =
      processInfo (some []) [] ⟨[], false⟩ 1 :=
  (malformed_substring (some []) ⟨[], false⟩ "short" [] 0).1 (by decide)

/-- Splitting never yields the empty list (Python `split` always
returns at least one piece). -/
theorem splitChar_ne_nil (c : Char) (l : List Char) : splitChar c l ≠ [] := by
  cases l with
  | nil => simp [splitChar]
  | cons a rest =>
    simp only [splitChar]
    split_ifs
    · simp
    · cases splitChar c rest <;> simp

/-- A split list is its head followed by its tail. -/
theorem pySplit_cons (c : Char) (s : String) :
    pySplit c s = (pySplit c s).getD 0 "" :: (pySplit c s).tail := by
  have h := splitChar_ne_nil c s.data
  unfold pySplit
  cases hh : splitChar c s.data with
  | nil => exact absurd hh h
  | cons g gs => simp

/-- C8: with the documented default `gene_filter=None`, any reached
well-formed sub-string whose feature type is "Transcript" makes the
membership test `HGNC_ID not in gene_filter` raise a TypeError (it is
evaluated on None before the truthiness guard); an explicit list, the
empty one included, never produces that TypeError; in particular a file
whose first line carries such a sub-string makes
`read_variant_effect_predictor` with its default argument raise. -/
theorem gene_filter_none (st : SubState) (co : String) (l : String)
    (lines' : List String) :
    (23 ≤ (subFields co).length →
      (subFields co).getD 5 "" = "Transcript" →
      processSubstring none st co = .error .typeError) ∧
    (∀ gfl : List String,
      processSubstring (some gfl) st co ≠ .error .typeError) ∧
    (skippedLine l = false →
      8 ≤ (lineFields l).length →
      23 ≤ (subFields ((lineInfo l).getD 0 "")).length →
      (subFields ((lineInfo l).getD 0 "")).getD 5 "" = "Transcript" →
      read_variant_effect_predictor (l :: lines') = .error .typeError) := by
  have part1 : ∀ (st' : SubState) (co' : String),
      23 ≤ (subFields co').length →
      (subFields co').getD 5 "" = "Transcript" →
      processSubstring none st' co' = .error .typeError := by
    intro st' co' h23 htt
    simp only [processSubstring]
    rw [if_neg (by omega), if_neg (by omega),
      if_neg (fun hne => hne htt)]
  refine ⟨part1 st co, ?_, ?_⟩
  · intro gfl hco
    simp only [processSubstring] at hco
    split_ifs at hco <;> (try split at hco) <;> (try split at hco) <;>
      simp at hco
  · intro hskip h8 hco23 hcott
    have hcons : lineInfo l = (lineInfo l).getD 0 "" :: (lineInfo l).tail :=
      pySplit_cons ',' ((lineFields l).getD 7 "")
    have h0 : processInfo none (lineInfo l) ⟨[], false⟩ 0 =
        .error .typeError := by
      rw [hcons]
      simp only [processInfo]
      rw [part1 _ _ hco23 hcott]
    have h1 : processLine none l = .error .typeError := by
      simp only [processLine, hskip]
      rw [if_neg (by simp), if_neg (by omega), h0]
    have h2 : readLines none 0 (l :: lines') = .error .typeError := by
      simp only [readLines]
      rw [h1]
    exact h2

/-- Witness for C8 at a concrete input: a one-line file with one
well-formed coding Transcript annotation, read with the default
gene filter. -/
theorem gene_filter_none_witness :
    read_variant_effect_predictor [goodLine] = .error .typeError :=
  (gene_filter_none ⟨[], false⟩ "" goodLine []).2.2
    (by decide) (by decide) (by decide) (by decide)

/-- C9: for a coding-relevant Transcript sub-string that passes the
gene filter and whose CDS-position field is non-empty, free of '?',
but not parseable as an integer, the `int()` conversion raises a
ValueError outside the try/except of the field unpacking: the
sub-string is not skipped, and the whole INFO loop (hence the read)
aborts. -/
theorem int_pos_aborts (gf : List String) (st : SubState) (co : String)
    (rest : List String) (w : Nat)
    (h23 : 23 ≤ (subFields co).length)
    (htt : (subFields co).getD 5 "" = "Transcript")
    (hgf : pyMem ((subFields co).getD 22 "") gf = true ∨ gf = [])
    (hcod : (pySplit '&' ((subFields co).getD 1 "")).any
        (fun t => pyMem t coding_types) = true)
    (hne : (subFields co).getD 13 "" ≠ "")
    (hq : ((subFields co).getD 13 "").data.contains '?' = false)
    (hbad : pyInt? ((pySplit '-' ((subFields co).getD 13 "")).getD 0 "") =
      none) :
    processSubstring (some gf) st co = .error .valueError ∧
    processInfo (some gf) (co :: rest) st w = .error .valueError := by
  have hgf' : ¬(¬ pyMem ((subFields co).getD 22 "") gf = true ∧
      gf ≠ []) := by
    rcases hgf with h | h
    · exact fun hc => hc.1 h
    · exact fun hc => hc.2 h
  have h1 : processSubstring (some gf) st co = .error .valueError := by
    simp only [processSubstring]
    rw [if_neg (by omega), if_neg (by omega), if_neg (fun hn => hn htt),
      if_neg hgf', if_pos hcod,
      if_pos ⟨hne, fun hc => Bool.false_ne_true (hq ▸ hc)⟩, hbad]
  exact ⟨h1, by simp only [processInfo, h1]⟩

/-- Witness for C9 at a concrete input (CDS position "abc"). -/
theorem int_pos_aborts_witness :
    processSubstring (some []) ⟨[], false⟩ badPosCo = .error .valueError ∧
    processInfo (some []) [badPosCo] ⟨[], false⟩ 0 = .error .valueError :=
  int_pos_aborts [] ⟨[], false⟩ badPosCo [] 0 (by decide) (by decide)
    (Or.inr rfl) (by decide) (by decide) (by decide) (by decide)

/-- C2 counterexample: a coding-relevant Transcript sub-string whose
transcript-position field is empty does not make the MutationSyntax
record the sentinel -1 as its transcript coordinate, as the claim
states: no MutationSyntax is recorded at all — the `coding` dict stays
empty. -/
theorem transcript_coordinate_cex :
    (subFields c2co).getD 13 "" = "" ∧
    (pySplit '&' ((subFields c2co).getD 1 "")).any
      (fun t => pyMem t coding_types) = true ∧
    processSubstring (some []) ⟨[], false⟩ c2co =
      .ok (⟨[], false⟩, false) := by
  decide

/-- C2 amended: for a coding-relevant Transcript sub-string passing the
gene filter, when the transcript-position field is non-empty and free
of '?' the recorded transcript coordinate is the parsed number before
the first '-' minus 1; when that field is empty or contains '?' no
MutationSyntax is recorded for the sub-string at all (the sentinel -1
belongs to the protein coordinate, used when the protein-position
field is empty). -/
theorem transcript_coordinate (gf : List String) (st : SubState)
    (co : String)
    (h23 : 23 ≤ (subFields co).length)
    (htt : (subFields co).getD 5 "" = "Transcript")
    (hgf : pyMem ((subFields co).getD 22 "") gf = true ∨ gf = [])
    (hcod : (pySplit '&' ((subFields co).getD 1 "")).any
        (fun t => pyMem t coding_types) = true) :
    (∀ n pp : Int,
      pyInt? ((pySplit '-' ((subFields co).getD 13 "")).getD 0 "") =
        some n →
      (if (subFields co).getD 14 "" = "" then some (-1 : Int)
       else (pyInt? ((pySplit '-' ((subFields co).getD 14 "")).getD 0
         "")).map (· - 1)) = some pp →
      (subFields co).getD 13 "" ≠ "" →
      ((subFields co).getD 13 "").data.contains '?' = false →
      processSubstring (some gf) st co =
        .ok (⟨insertCoding st.coding ((subFields co).getD 6 "")
               ⟨(subFields co).getD 6 "", n - 1, pp, co, "",
                (subFields co).getD 22 ""⟩,
              (pySplit '&' ((subFields co).getD 1 "")).any
                (fun t => decide (t = "synonymous_variant"))⟩, false)) ∧
    ((subFields co).getD 13 "" = "" ∨
       ((subFields co).getD 13 "").data.contains '?' = true →
      processSubstring (some gf) st co =
        .ok (⟨st.coding,
              (pySplit '&' ((subFields co).getD 1 "")).any
                (fun t => decide (t = "synonymous_variant"))⟩, false)) := by
  have hgf' : ¬(¬ pyMem ((subFields co).getD 22 "") gf = true ∧
      gf ≠ []) := by
    rcases hgf with h | h
    · exact fun hc => hc.1 h
    · exact fun hc => hc.2 h
  constructor
  · intro n pp hn hpp hne hq
    simp only [processSubstring]
    rw [if_neg (by omega), if_neg (by omega), if_neg (fun hx => hx htt),
      if_neg hgf', if_pos hcod,
      if_pos ⟨hne, fun hc => Bool.false_ne_true (hq ▸ hc)⟩, hn, hpp]
  · intro hempty
    have hneg : ¬((subFields co).getD 13 "" ≠ "" ∧
        ¬((subFields co).getD 13 "").data.contains '?' = true) := by
      rcases hempty with h | h
      · exact fun hc => hc.1 h
      · exact fun hc => hc.2 h
    simp only [processSubstring]
    rw [if_neg (by omega), if_neg (by omega), if_neg (fun hx => hx htt),
      if_neg hgf', if_pos hcod, if_neg hneg]

/-- C3 counterexample: a line whose first Transcript annotation carries
"synonymous_variant" but whose last one does not is emitted with the
synonymous flag false: the flag is not "true iff some annotation is
synonymous". -/
theorem synonymous_flag_cex :
    lineHasSynAnnot c3line = true ∧
    Except.map (fun r => Option.map Variant.isSynonymous r.1)
      (processLine (some []) c3line) = .ok (some false) := by
  decide

/-- C3 amended: the synonymous flag is overwritten by every sub-string
that passes the field-count, feature-type and gene filters — it ends
as the synonymous status of the last such sub-string of the line
(last-write-wins), while skipped sub-strings leave it unchanged. -/
theorem synonymous_last_write (gf : List String) (st : SubState)
    (co : String) :
    ((23 ≤ (subFields co).length ∧
      (subFields co).getD 5 "" = "Transcript" ∧
      (pyMem ((subFields co).getD 22 "") gf = true ∨ gf = [])) →
      ∀ r : SubState × Bool, processSubstring (some gf) st co = .ok r →
        r.1.isSynonymous = (pySplit '&' ((subFields co).getD 1 "")).any
          (fun t => decide (t = "synonymous_variant"))) ∧
    ((subFields co).length < 16 →
      processSubstring (some gf) st co = .ok (st, true)) ∧
    ((23 ≤ (subFields co).length ∧
      ((subFields co).getD 5 "" ≠ "Transcript" ∨
        (¬ pyMem ((subFields co).getD 22 "") gf = true ∧ gf ≠ []))) →
      processSubstring (some gf) st co = .ok (st, false)) := by
  refine ⟨?_, ?_, ?_⟩
  · rintro ⟨h23, htt, hgf⟩ r hr
    have hgf' : ¬(¬ pyMem ((subFields co).getD 22 "") gf = true ∧
        gf ≠ []) := by
      rcases hgf with h | h
      · exact fun hc => hc.1 h
      · exact fun hc => hc.2 h
    simp only [processSubstring] at hr
    rw [if_neg (by omega), if_neg (by omega), if_neg (fun hx => hx htt),
      if_neg hgf'] at hr
    split_ifs at hr <;> (try split at hr) <;> (try split at hr) <;>
      first
        | (injection hr with hr'; subst hr'; rfl)
        | injection hr
  · intro h16
    simp only [processSubstring]
    rw [if_pos h16]
  · rintro ⟨h23, hor⟩
    by_cases htt : (subFields co).getD 5 "" = "Transcript"
    · rcases hor with h | h
      · exact absurd htt h
      · simp only [processSubstring]
        rw [if_neg (by omega), if_neg (by omega), if_neg (fun hx => hx htt),
          if_pos h]
    · simp only [processSubstring]
      rw [if_neg (by omega), if_neg (by omega), if_pos htt]

/-- Witness for C3's amended theorem at a concrete input: a synonymous
sub-string processed from a state whose flag is false yields the flag
of the sub-string itself. -/
theorem synonymous_last_write_witness :
    ((⟨[("T1", ⟨"T1", 4, 5, synCo, "", "HGNC:1"⟩)], true⟩, false) :
      SubState × Bool).1.isSynonymous =
      (pySplit '&' ((subFields synCo).getD 1 "")).any
        (fun t => decide (t = "synonymous_variant")) :=
  (synonymous_last_write [] ⟨[], false⟩ synCo).1
    ⟨by decide, by decide, Or.inr rfl⟩ _ (by decide)

/-- Witness for C2's amended theorem at a concrete input (CDS position
"15" stored as coordinate 14). -/
theorem transcript_coordinate_witness :
    processSubstring (some []) ⟨[], false⟩ wellFormedCo =
      .ok (⟨[("T1", ⟨"T1", 14, 5, wellFormedCo, "", "HGNC:1"⟩)],
            false⟩, false) :=
  (transcript_coordinate [] ⟨[], false⟩ wellFormedCo (by decide)
    (by decide) (Or.inr rfl) (by decide)).1 15 5 (by decide) (by decide)
    (by decide) (by decide)

/-- C6: a line emits a Variant exactly when its transcript →
MutationSyntax map is non-empty after filtering: every emitted Variant
has a non-empty map; when the INFO loop ends with an empty `coding`
dict the line emits nothing; and when it ends with a non-empty dict on
a processed line (non-comment, at least 8 tab fields, parseable POS) a
Variant carrying exactly that dict is emitted. -/
theorem variant_iff_coding (gf : Option (List String)) (l : String) :
    (∀ (v : Variant) (w : Nat),
      processLine gf l = .ok (some v, w) → v.coding ≠ []) ∧
    (∀ (st : SubState) (w : Nat),
      processInfo gf (lineInfo l) ⟨[], false⟩ 0 = .ok (st, w) →
      st.coding = [] →
      ∀ r : Option Variant × Nat, processLine gf l = .ok r →
        r.1 = none) ∧
    (∀ (st : SubState) (w : Nat) (p : Int),
      processInfo gf (lineInfo l) ⟨[], false⟩ 0 = .ok (st, w) →
      st.coding ≠ [] →
      ¬ skippedLine l = true →
      8 ≤ (lineFields l).length →
      pyInt? ((lineFields l).getD 1 "") = some p →
      ∃ v : Variant, processLine gf l = .ok (some v, w) ∧
        v.coding = st.coding) := by
  refine ⟨?_, ?_, ?_⟩
  · intro v w h
    by_cases hskip : skippedLine l = true
    · simp [processLine, hskip] at h
    · by_cases h8 : (lineFields l).length < 8
      · simp [processLine, hskip, h8] at h
      · cases hpi : processInfo gf (lineInfo l) ⟨[], false⟩ 0 with
        | error e => simp [processLine, hskip, h8, hpi] at h
        | ok p =>
          obtain ⟨st, w'⟩ := p
          by_cases hcod : st.coding = []
          · simp [processLine, hskip, h8, hpi, hcod] at h
          · cases hp : pyInt? ((lineFields l).getD 1 "") with
            | none =>
              simp only [processLine, hpi, hp] at h
              rw [if_neg hskip, if_neg h8, if_pos hcod] at h
              injection h
            | some p0 =>
              have hfwd : processLine gf l =
                  .ok (some ⟨(lineFields l).getD 2 "",
                    get_type ((lineFields l).getD 3 "")
                      ((lineFields l).getD 4 ""),
                    (lineFields l).getD 0 "", p0,
                    pyUpper ((lineFields l).getD 3 ""),
                    pyUpper ((lineFields l).getD 4 ""), st.coding, false,
                    st.isSynonymous⟩, w') := by
                simp only [processLine, hpi, hp]
                rw [if_neg hskip, if_neg h8, if_pos hcod]
              rw [hfwd] at h
              injection h with h'
              injection h' with h1 h2
              injection h1 with h1'
              subst h1'
              exact hcod
  · intro st w hinfo hcodempty r hr
    by_cases hskip : skippedLine l = true
    · rw [show processLine gf l = .ok (none, 0) by
        simp [processLine, hskip]] at hr
      injection hr with hr'
      subst hr'
      rfl
    · by_cases h8 : (lineFields l).length < 8
      · rw [show processLine gf l = .error .valueError by
          simp [processLine, hskip, h8]] at hr
        injection hr
      · rw [show processLine gf l = .ok (none, w) by
          simp only [processLine, hinfo]
          rw [if_neg hskip, if_neg h8, if_neg (fun hne => hne hcodempty)]]
          at hr
        injection hr with hr'
        subst hr'
        rfl
  · intro st w p hinfo hcod hskip h8 hp
    refine ⟨⟨(lineFields l).getD 2 "",
      get_type ((lineFields l).getD 3 "") ((lineFields l).getD 4 ""),
      (lineFields l).getD 0 "", p, pyUpper ((lineFields l).getD 3 ""),
      pyUpper ((lineFields l).getD 4 ""), st.coding, false,
      st.isSynonymous⟩, ?_, rfl⟩
    simp only [processLine, hinfo, hp]
    rw [if_neg hskip, if_neg (by omega), if_pos hcod]

/-- Witness for C6 at a concrete input: a line whose single annotation
is coding-relevant ends the INFO loop with a one-entry dict and emits a
Variant carrying exactly that dict. -/
theorem variant_iff_coding_witness :
    ∃ v : Variant, processLine (some []) goodLine = .ok (some v, 0) ∧
      v.coding = [("T1", ⟨"T1", 14, 5, wellFormedCo, "", "HGNC:1"⟩)] :=
  (variant_iff_coding (some []) goodLine).2.2
    ⟨[("T1", ⟨"T1", 14, 5, wellFormedCo, "", "HGNC:1"⟩)], false⟩ 0 100
    (by decide) (by decide) (by decide) (by decide) (by decide)

/-- C10: the genomic position is converted to an integer only at
Variant construction: a non-comment line with at least 8 tab fields
and a non-numeric POS is silently accepted (emitting nothing) when the
INFO loop leaves the `coding` dict empty, and raises an uncaught
ValueError exactly when the dict is non-empty. -/
theorem genome_pos_conversion (gf : Option (List String)) (l : String)
    (st : SubState) (w : Nat)
    (hskip : ¬ skippedLine l = true)
    (h8 : 8 ≤ (lineFields l).length)
    (hpos : pyInt? ((lineFields l).getD 1 "") = none)
    (hinfo : processInfo gf (lineInfo l) ⟨[], false⟩ 0 = .ok (st, w)) :
    (st.coding = [] → processLine gf l = .ok (none, w)) ∧
    (st.coding ≠ [] → processLine gf l = .error .valueError) := by
  constructor <;> intro hc
  · simp only [processLine, hinfo]
    rw [if_neg hskip, if_neg (by omega), if_neg (fun hne => hne hc)]
  · simp only [processLine, hinfo, hpos]
    rw [if_neg hskip, if_neg (by omega), if_pos hc]

/-- Witness for C10 at concrete inputs: the same non-numeric POS "xx"
is accepted when the only annotation is non-coding and aborts the read
when the annotation is coding-relevant. -/
theorem genome_pos_conversion_witness :
    processLine (some []) nonCodingBadPosLine = .ok (none, 0) ∧
    processLine (some []) codingBadPosLine = .error .valueError :=
  ⟨(genome_pos_conversion (some []) nonCodingBadPosLine ⟨[], false⟩ 0
      (by decide) (by decide) (by decide) (by decide)).1 rfl,
   (genome_pos_conversion (some []) codingBadPosLine
      ⟨[("T1", ⟨"T1", 14, 5, wellFormedCo, "", "HGNC:1"⟩)], false⟩ 0
      (by decide) (by decide) (by decide) (by decide)).2 (by decide)⟩
